import Mathlib

/-!
Verification development for the `ball_ramps.py` demo: a ball rolling down six
static ramps under gravity, reset to its start position when it leaves the
screen.  The Python source delegates physics to pymunk and rendering to pygame;
the definitions below embed the repository's own orchestration code: the static
geometry table, the coordinate conversion, the space bookkeeping (which bodies
and shapes are present), the per-frame loop, and the bounds check with respawn.

Modelling conventions:
* pymunk positions are embedded as exact rationals (`ℚ`); Python `int(...)`
  applied to them is truncation toward zero (`pyInt`).
* the pymunk `Space` is embedded as the list of handles that the code has
  added to it (`SpaceObj`); ball objects carry a generation number so that a
  destroyed-and-recreated ball is a distinguishable new instance.
* `space.step(dt)` integrates the dynamic bodies inside the space; the ball's
  post-step body position is supplied by an oracle carried in each `Frame`
  (the integrator itself is external library code).  Ramp bodies are static
  and are never inside the space, so the step leaves them untouched.
* rendering calls are side effects on the pygame surface only; the per-frame
  loop additionally records a `Phase` trace so that the order of the calls in
  `Control.update` is itself a checkable artifact.
-/

namespace BallRamps

/-- `SCREEN_SIZE = (800, 600)`. -/
def SCREEN_SIZE : ℤ × ℤ := (800, 600)

/-- `START_X = 100`. -/
def START_X : ℚ := 100

/-- `START_Y = 500`. -/
def START_Y : ℚ := 500

/-- `GRAVITY = (0.0, -400)`. -/
def GRAVITY : ℚ × ℚ := (0, -400)

/-- Python `int(...)` on an exact rational: truncation toward zero. -/
def pyInt (q : ℚ) : ℤ := q.num.tdiv (q.den : ℤ)

/-- Modelled from the pymunk documentation: `moment_for_circle(mass, inner, outer)`
for an un-offset circle is `mass * (inner^2 + outer^2) / 2`. -/
def momentForCircle (mass inner outer : ℚ) : ℚ :=
  mass * ((inner ^ 2 + outer ^ 2) / 2)

/-- `Ball.__init__` state: fixed mass and radius, derived inertia, the pymunk
body position, and the pair of attributes `self.x`, `self.y` written by
`Ball.update` (absent, hence `none`, until the first update). -/
structure Ball where
  mass : ℚ
  radius : ℚ
  inertia : ℚ
  position : ℚ × ℚ
  screenPos : Option (ℤ × ℤ)

/-- `Ball(x, y)`: mass 1, radius 14, inertia from `moment_for_circle`, body
placed at `(x, y)`; the cached screen position is not yet assigned. -/
def Ball.make (x y : ℚ) : Ball :=
  { mass := 1
    radius := 14
    inertia := momentForCircle 1 0 14
    position := (x, y)
    screenPos := none }

/-- `Ball.update`: `self.x = int(position.x)`,
`self.y = int(position.y * -1 + SCREEN_SIZE[1])`. -/
def Ball.update (b : Ball) : Ball :=
  { b with
    screenPos :=
      some (pyInt b.position.1, pyInt (b.position.2 * (-1) + (SCREEN_SIZE.2 : ℚ))) }

/-- A pymunk `Segment(body, a, b, radius)`: two local endpoints and a thickness. -/
structure Segment where
  a : ℚ × ℚ
  b : ℚ × ℚ
  radius : ℚ

/-- `Ramp` wrapper: the name it was constructed with, the static body's
position, and the segment shape attached to it. -/
structure Ramp where
  name : String
  position : ℚ × ℚ
  shape : Segment

/-- `Ramp.set_dimensions`: the if/elif chain keyed on the ramp's name.  For a
name other than `ramp 1` .. `ramp 6` the Python local `shape` is never bound
and the trailing `return shape` raises, so construction yields no ramp:
embedded as `none`. -/
def setDimensions (name : String) : Option ((ℚ × ℚ) × Segment) :=
  if name = "ramp 1" then some ((200, 400), ⟨(-150, 100), (150, 0), 10⟩)
  else if name = "ramp 2" then some ((550, 350), ⟨(-150, 0), (150, 100), 10⟩)
  else if name = "ramp 3" then some ((200, 300), ⟨(-150, 100), (150, 0), 10⟩)
  else if name = "ramp 4" then some ((550, 250), ⟨(-150, 0), (150, 100), 10⟩)
  else if name = "ramp 5" then some ((200, 200), ⟨(-150, 100), (150, 0), 10⟩)
  else if name = "ramp 6" then some ((550, 150), ⟨(-150, 0), (150, 100), 10⟩)
  else none

/-- `Ramp(name)`: a static body positioned by `set_dimensions` together with
its one segment shape; fails exactly when `set_dimensions` does. -/
def Ramp.make (name : String) : Option Ramp :=
  (setDimensions name).map fun ps => { name := name, position := ps.1, shape := ps.2 }

/-- `Ramp.convert_to_pg_coordinates`: `(int(pos.x), int(-pos.y + SCREEN_SIZE[1]))`. -/
def convertToPgCoordinates (pos : ℚ × ℚ) : ℤ × ℤ :=
  (pyInt pos.1, pyInt (-pos.2 + (SCREEN_SIZE.2 : ℚ)))

/-- The two screen-space endpoints computed by `Ramp.draw`:
`body.position + shape.a` and `body.position + shape.b`, each converted to
pygame coordinates. -/
def rampDrawPoints (r : Ramp) : (ℤ × ℤ) × (ℤ × ℤ) :=
  (convertToPgCoordinates (r.position + r.shape.a),
   convertToPgCoordinates (r.position + r.shape.b))

/-- A handle held by the pymunk space.  Ball handles carry the generation of
the `Ball` instance they belong to (incremented at every destroy-and-recreate),
so "exactly one ball instance" is expressible.  `rampBody` is a possible
handle that the program never adds. -/
inductive SpaceObj where
  | ballBody (gen : ℕ)
  | ballShape (gen : ℕ)
  | rampShape (idx : ℕ)
  | rampBody (idx : ℕ)
deriving DecidableEq

/-- Is this handle part of a ball instance (its body or its circle shape)? -/
def isBallObj : SpaceObj → Bool
  | .ballBody _ => true
  | .ballShape _ => true
  | _ => false

def isBallBodyObj : SpaceObj → Bool
  | .ballBody _ => true
  | _ => false

def isBallShapeObj : SpaceObj → Bool
  | .ballShape _ => true
  | _ => false

def isRampShapeObj : SpaceObj → Bool
  | .rampShape _ => true
  | _ => false

/-- The pressed-keys snapshot returned by `pg.key.get_pressed()`. -/
abbrev Keys := List Bool

/-- A pygame event as consumed by `Control.get_user_input`: quit, key down and
key up (each carrying the `get_pressed` snapshot taken when handled), or any
other event type (ignored by the code). -/
inductive PgEvent where
  | quit
  | keydown (snapshot : Keys)
  | keyup (snapshot : Keys)
  | other

def isQuitEvent : PgEvent → Bool
  | .quit => true
  | _ => false

/-- External inputs consumed by one iteration of the main loop: the pending
event queue, the `pg.time.get_ticks()` value, and the ball body position
produced by the pymunk integrator for this `space.step` call. -/
structure Frame where
  events : List PgEvent
  ticks : ℚ
  ballPos : ℚ × ℚ

/-- `Control` state: the space contents, gravity, the done flag, the frame-rate
target, the stored tick count, the cached pressed-keys snapshot, the six ramp
wrappers, the current ball wrapper, and the current ball generation. -/
@[ext]
structure Control where
  space : List SpaceObj
  gravity : ℚ × ℚ
  done : Bool
  fps : ℕ
  current_time : ℚ
  keys : Keys
  ramps : List Ramp
  ball : Ball
  ballGen : ℕ

/-- The six names used by `Control.add_ramps_to_space`. -/
def rampNames : List String :=
  ["ramp 1", "ramp 2", "ramp 3", "ramp 4", "ramp 5", "ramp 6"]

/-- The `self.ramps` list built in `add_ramps_to_space` (all six constructions
succeed, so the `filterMap` keeps every entry). -/
def initRamps : List Ramp := rampNames.filterMap Ramp.make

/-- The shape handles added by the `for ramp in self.ramps: space.add(ramp.shape)`
loop, in order. -/
def rampShapeObjs : List SpaceObj :=
  (List.range initRamps.length).map SpaceObj.rampShape

/-- `Control.__init__`: gravity set, done false, 60 fps target, time 0, the
initial `get_pressed` snapshot, then `add_ramps_to_space` (ramp shapes added)
and `add_ball_to_space` (ball body then ball shape added, generation 0). -/
def initControl (keys0 : Keys) : Control :=
  { space := rampShapeObjs ++ [SpaceObj.ballBody 0, SpaceObj.ballShape 0]
    gravity := GRAVITY
    done := false
    fps := 60
    current_time := 0
    keys := keys0
    ramps := initRamps
    ball := Ball.make START_X START_Y
    ballGen := 0 }

/-- One event handled by `get_user_input`: QUIT sets the done flag, KEYDOWN and
KEYUP overwrite the cached keys snapshot, anything else is ignored. -/
def applyEvent (c : Control) (e : PgEvent) : Control :=
  match e with
  | .quit => { c with done := true }
  | .keydown snap => { c with keys := snap }
  | .keyup snap => { c with keys := snap }
  | .other => c

/-- `Control.get_user_input`: the for-loop over `pg.event.get()`. -/
def getUserInput (c : Control) (events : List PgEvent) : Control :=
  events.foldl applyEvent c

/-- `Control.reset_ball_position`: `space.remove(ball.shape, ball.body)`, then a
brand-new `Ball(START_X, START_Y)` (next generation) whose body and shape are
both added. -/
def resetBallPosition (c : Control) : Control :=
  { c with
    space :=
      ((c.space.erase (SpaceObj.ballShape c.ballGen)).erase
          (SpaceObj.ballBody c.ballGen))
        ++ [SpaceObj.ballBody (c.ballGen + 1), SpaceObj.ballShape (c.ballGen + 1)]
    ball := Ball.make START_X START_Y
    ballGen := c.ballGen + 1 }

/-- `Control.check_if_ball_off_screen`: reads the cached screen coordinates; the
x test first, the y test in the elif, both branches calling the reset.  The
`none` case would be a Python `AttributeError` (the attributes not yet written):
the loop always refreshes before checking, so it is never reached there. -/
def checkIfBallOffScreen (c : Control) : Control :=
  match c.ball.screenPos with
  | some (x, y) =>
    if x > SCREEN_SIZE.1 ∨ x < 0 then resetBallPosition c
    else if y > SCREEN_SIZE.2 ∨ y < 0 then resetBallPosition c
    else c
  | none => c

/-- The fixed timestep passed to `space.step`: `1/50.0`, a literal unrelated to
`self.fps`. -/
def physicsDt : ℚ := 1 / 50

/-- `space.step(1/50.0)`: the external integrator advances the dynamic bodies
inside the space; the ball's resulting body position is the oracle value.  The
cached screen attributes are untouched, as are the ramps (static geometry whose
bodies are not in the space). -/
def spaceStep (c : Control) (newBallPos : ℚ × ℚ) : Control :=
  { c with ball := { c.ball with position := newBallPos } }

/-- The state reached inside one loop iteration just before the bounds check:
input handled, tick count stored, screen filled (no state), physics stepped,
ball's cached screen position refreshed, ball and ramps drawn (no state). -/
def preCheckState (c : Control) (f : Frame) : Control :=
  let c1 := getUserInput c f.events
  let c2 := { c1 with current_time := f.ticks }
  let c3 := spaceStep c2 f.ballPos
  { c3 with ball := c3.ball.update }

/-- One of the calls made, in order, by the body of `Control.update`. -/
inductive Phase where
  | pollInput
  | recordTime (t : ℚ)
  | fillScreen
  | physicsStep (dt : ℚ)
  | refreshBall
  | drawBall
  | drawRamp (i : ℕ)
  | boundsCheck
  | displayUpdate
  | clockTick (fps : ℕ)

/-- The body of the `while not self.done` loop, paired with the trace of the
calls it makes: `get_user_input`, `get_ticks`, `screen.fill`, `space.step(1/50)`,
`ball.update`, `draw` (ball first, then each ramp in list order),
`check_if_ball_off_screen`, `display.update`, `clock.tick(fps)`. -/
def loopIterT (c : Control) (f : Frame) : Control × List Phase :=
  (checkIfBallOffScreen (preCheckState c f),
    [Phase.pollInput, Phase.recordTime f.ticks, Phase.fillScreen,
      Phase.physicsStep physicsDt, Phase.refreshBall, Phase.drawBall]
      ++ (List.range (preCheckState c f).ramps.length).map Phase.drawRamp
      ++ [Phase.boundsCheck, Phase.displayUpdate, Phase.clockTick c.fps])

/-- The state transition of one loop iteration. -/
def loopIter (c : Control) (f : Frame) : Control := (loopIterT c f).1

/-- The call trace of one loop iteration. -/
def loopTrace (c : Control) (f : Frame) : List Phase := (loopIterT c f).2

/-- `Control.update`: iterate the loop body while not done, consuming the
stream of external inputs frame by frame. -/
def run (c : Control) : List Frame → Control
  | [] => c
  | f :: fs => if c.done then c else run (loopIter c f) fs

/-- The space bookkeeping invariant: the space holds exactly the six ramp
shapes (in insertion order) followed by the current ball's body and shape. -/
def SpaceInv (c : Control) : Prop :=
  c.space =
    rampShapeObjs ++ [SpaceObj.ballBody c.ballGen, SpaceObj.ballShape c.ballGen]

/-! ### Helper lemmas -/

lemma pyInt_intCast (n : ℤ) : pyInt ((n : ℤ) : ℚ) = n := by
  simp [pyInt, Rat.num_intCast, Rat.den_intCast]

lemma pyInt_eval (q : ℚ) (n : ℤ) (h : q = (n : ℚ)) : pyInt q = n := by
  rw [h, pyInt_intCast]

lemma convertToPgCoordinates_eval (x y : ℚ) (a b : ℤ) (h1 : x = (a : ℚ))
    (h2 : -y + 600 = (b : ℚ)) :
    convertToPgCoordinates (x, y) = (a, b) := by
  simp only [convertToPgCoordinates, SCREEN_SIZE]
  rw [pyInt_eval x a h1]
  rw [pyInt_eval _ b (by push_cast; exact_mod_cast h2)]

/-- The cumulative effect of the event loop on the done flag. -/
def doneAfter (d : Bool) (events : List PgEvent) : Bool :=
  events.foldl
    (fun acc e => match e with
      | .quit => true
      | _ => acc) d

/-- The cumulative effect of the event loop on the keys snapshot. -/
def keysAfter (k : Keys) (events : List PgEvent) : Keys :=
  events.foldl
    (fun acc e => match e with
      | .keydown s => s
      | .keyup s => s
      | _ => acc) k

lemma getUserInput_eq (c : Control) (events : List PgEvent) :
    getUserInput c events =
      { c with done := doneAfter c.done events, keys := keysAfter c.keys events } := by
  induction events generalizing c with
  | nil => rfl
  | cons e es ih =>
    cases e with
    | quit =>
      rw [show getUserInput c (PgEvent.quit :: es)
            = getUserInput { c with done := true } es from rfl, ih]
      rfl
    | keydown s =>
      rw [show getUserInput c (PgEvent.keydown s :: es)
            = getUserInput { c with keys := s } es from rfl, ih]
      rfl
    | keyup s =>
      rw [show getUserInput c (PgEvent.keyup s :: es)
            = getUserInput { c with keys := s } es from rfl, ih]
      rfl
    | other =>
      rw [show getUserInput c (PgEvent.other :: es) = getUserInput c es from rfl, ih]
      rfl

lemma doneAfter_eq (d : Bool) (events : List PgEvent) :
    doneAfter d events = (d || events.any isQuitEvent) := by
  induction events generalizing d with
  | nil => simp [doneAfter]
  | cons e es ih =>
    cases e with
    | quit =>
      show doneAfter true es = _
      rw [ih true]
      simp [isQuitEvent, List.any_cons]
    | keydown s =>
      show doneAfter d es = _
      rw [ih d]
      simp [isQuitEvent, List.any_cons]
    | keyup s =>
      show doneAfter d es = _
      rw [ih d]
      simp [isQuitEvent, List.any_cons]
    | other =>
      show doneAfter d es = _
      rw [ih d]
      simp [isQuitEvent, List.any_cons]

lemma ballShape_not_mem_rampShapeObjs (g : ℕ) :
    SpaceObj.ballShape g ∉ rampShapeObjs := by
  simp [rampShapeObjs]

lemma ballBody_not_mem_rampShapeObjs (g : ℕ) :
    SpaceObj.ballBody g ∉ rampShapeObjs := by
  simp [rampShapeObjs]

lemma resetBallPosition_space (c : Control) (h : SpaceInv c) :
    (resetBallPosition c).space =
      rampShapeObjs
        ++ [SpaceObj.ballBody (c.ballGen + 1), SpaceObj.ballShape (c.ballGen + 1)] := by
  have hb : (rampShapeObjs
      ++ [SpaceObj.ballBody c.ballGen, SpaceObj.ballShape c.ballGen]).erase
        (SpaceObj.ballShape c.ballGen)
      = rampShapeObjs ++ [SpaceObj.ballBody c.ballGen] := by
    rw [List.erase_append_right _ (ballShape_not_mem_rampShapeObjs c.ballGen)]
    simp [List.erase_cons]
  have hb2 : (rampShapeObjs ++ [SpaceObj.ballBody c.ballGen]).erase
        (SpaceObj.ballBody c.ballGen)
      = rampShapeObjs := by
    rw [List.erase_append_right _ (ballBody_not_mem_rampShapeObjs c.ballGen)]
    simp [List.erase_cons]
  show (c.space.erase (SpaceObj.ballShape c.ballGen)).erase
        (SpaceObj.ballBody c.ballGen)
      ++ [SpaceObj.ballBody (c.ballGen + 1), SpaceObj.ballShape (c.ballGen + 1)]
    = _
  rw [h, hb, hb2]

lemma resetBallPosition_spaceInv (c : Control) (h : SpaceInv c) :
    SpaceInv (resetBallPosition c) := by
  show (resetBallPosition c).space = _
  rw [resetBallPosition_space c h]
  rfl

/-- `checkIfBallOffScreen` written with the scrutinee exposed, for rewriting. -/
lemma checkIfBallOffScreen_eq (c : Control) :
    checkIfBallOffScreen c =
      match c.ball.screenPos with
      | some (x, y) =>
        if x > SCREEN_SIZE.1 ∨ x < 0 then resetBallPosition c
        else if y > SCREEN_SIZE.2 ∨ y < 0 then resetBallPosition c
        else c
      | none => c := rfl

lemma checkIfBallOffScreen_cases (c : Control) :
    checkIfBallOffScreen c = c ∨ checkIfBallOffScreen c = resetBallPosition c := by
  rw [checkIfBallOffScreen_eq]
  rcases c.ball.screenPos with _ | ⟨x, y⟩
  · exact Or.inl rfl
  · dsimp only
    split_ifs
    · exact Or.inr rfl
    · exact Or.inr rfl
    · exact Or.inl rfl

lemma checkIfBallOffScreen_spaceInv (c : Control) (h : SpaceInv c) :
    SpaceInv (checkIfBallOffScreen c) := by
  rcases checkIfBallOffScreen_cases c with he | he
  · rw [he]; exact h
  · rw [he]; exact resetBallPosition_spaceInv c h

lemma preCheckState_space (c : Control) (f : Frame) :
    (preCheckState c f).space = c.space := by
  simp only [preCheckState, spaceStep]
  rw [getUserInput_eq]

lemma preCheckState_ballGen (c : Control) (f : Frame) :
    (preCheckState c f).ballGen = c.ballGen := by
  simp only [preCheckState, spaceStep]
  rw [getUserInput_eq]

lemma preCheckState_ramps (c : Control) (f : Frame) :
    (preCheckState c f).ramps = c.ramps := by
  simp only [preCheckState, spaceStep]
  rw [getUserInput_eq]

lemma preCheckState_fps (c : Control) (f : Frame) :
    (preCheckState c f).fps = c.fps := by
  simp only [preCheckState, spaceStep]
  rw [getUserInput_eq]

lemma preCheckState_done (c : Control) (f : Frame) :
    (preCheckState c f).done = doneAfter c.done f.events := by
  simp only [preCheckState, spaceStep]
  rw [getUserInput_eq]

lemma preCheckState_spaceInv (c : Control) (f : Frame) (h : SpaceInv c) :
    SpaceInv (preCheckState c f) := by
  show (preCheckState c f).space = _
  rw [preCheckState_space, preCheckState_ballGen]
  exact h

lemma resetBallPosition_ramps (c : Control) :
    (resetBallPosition c).ramps = c.ramps := rfl

lemma resetBallPosition_fps (c : Control) :
    (resetBallPosition c).fps = c.fps := rfl

lemma resetBallPosition_done (c : Control) :
    (resetBallPosition c).done = c.done := rfl

lemma resetBallPosition_keys (c : Control) :
    (resetBallPosition c).keys = c.keys := rfl

lemma checkIfBallOffScreen_ramps (c : Control) :
    (checkIfBallOffScreen c).ramps = c.ramps := by
  rcases checkIfBallOffScreen_cases c with he | he
  · rw [he]
  · rw [he]; rfl

lemma checkIfBallOffScreen_fps (c : Control) :
    (checkIfBallOffScreen c).fps = c.fps := by
  rcases checkIfBallOffScreen_cases c with he | he
  · rw [he]
  · rw [he]; rfl

lemma checkIfBallOffScreen_done (c : Control) :
    (checkIfBallOffScreen c).done = c.done := by
  rcases checkIfBallOffScreen_cases c with he | he
  · rw [he]
  · rw [he]; rfl

lemma loopIter_eq (c : Control) (f : Frame) :
    loopIter c f = checkIfBallOffScreen (preCheckState c f) := rfl

lemma loopIter_spaceInv (c : Control) (f : Frame) (h : SpaceInv c) :
    SpaceInv (loopIter c f) := by
  rw [loopIter_eq]
  exact checkIfBallOffScreen_spaceInv _ (preCheckState_spaceInv c f h)

lemma loopIter_ramps (c : Control) (f : Frame) :
    (loopIter c f).ramps = c.ramps := by
  rw [loopIter_eq, checkIfBallOffScreen_ramps, preCheckState_ramps]

lemma loopIter_fps (c : Control) (f : Frame) :
    (loopIter c f).fps = c.fps := by
  rw [loopIter_eq, checkIfBallOffScreen_fps, preCheckState_fps]

lemma loopIter_done (c : Control) (f : Frame) :
    (loopIter c f).done = (c.done || f.events.any isQuitEvent) := by
  rw [loopIter_eq, checkIfBallOffScreen_done, preCheckState_done, doneAfter_eq]

lemma run_spaceInv (frames : List Frame) (c : Control) (h : SpaceInv c) :
    SpaceInv (run c frames) := by
  induction frames generalizing c with
  | nil => exact h
  | cons f fs ih =>
    show SpaceInv (if c.done then c else run (loopIter c f) fs)
    split_ifs
    · exact h
    · exact ih _ (loopIter_spaceInv c f h)

lemma run_ramps (frames : List Frame) (c : Control) :
    (run c frames).ramps = c.ramps := by
  induction frames generalizing c with
  | nil => rfl
  | cons f fs ih =>
    show (if c.done then c else run (loopIter c f) fs).ramps = c.ramps
    split_ifs
    · rfl
    · rw [ih, loopIter_ramps]

lemma run_fps (frames : List Frame) (c : Control) :
    (run c frames).fps = c.fps := by
  induction frames generalizing c with
  | nil => rfl
  | cons f fs ih =>
    show (if c.done then c else run (loopIter c f) fs).fps = c.fps
    split_ifs
    · rfl
    · rw [ih, loopIter_fps]

lemma spaceInv_initControl (keys0 : Keys) : SpaceInv (initControl keys0) := rfl

/-! ### The keys snapshot is dead state: changing it only changes itself -/

lemma checkIfBallOffScreen_keysComm (c : Control) (k : Keys) :
    checkIfBallOffScreen { c with keys := k }
      = { checkIfBallOffScreen c with keys := k } := by
  have h : checkIfBallOffScreen { c with keys := k } =
      match c.ball.screenPos with
      | some (x, y) =>
        if x > SCREEN_SIZE.1 ∨ x < 0 then resetBallPosition { c with keys := k }
        else if y > SCREEN_SIZE.2 ∨ y < 0 then resetBallPosition { c with keys := k }
        else { c with keys := k }
      | none => { c with keys := k } := rfl
  rw [h, checkIfBallOffScreen_eq]
  rcases c.ball.screenPos with _ | ⟨x, y⟩
  · rfl
  · dsimp only
    split_ifs <;> rfl

lemma preCheckState_keysComm (c : Control) (k : Keys) (f : Frame) :
    preCheckState { c with keys := k } f
      = { preCheckState c f with keys := keysAfter k f.events } := by
  simp only [preCheckState, spaceStep]
  rw [getUserInput_eq, getUserInput_eq]

lemma loopIter_keysComm (c : Control) (k : Keys) (f : Frame) :
    loopIter { c with keys := k } f
      = { loopIter c f with keys := keysAfter k f.events } := by
  rw [loopIter_eq, loopIter_eq, preCheckState_keysComm,
    checkIfBallOffScreen_keysComm]

lemma run_of_done (c : Control) (frames : List Frame) (h : c.done = true) :
    run c frames = c := by
  cases frames with
  | nil => rfl
  | cons f fs =>
    show (if c.done then c else run (loopIter c f) fs) = c
    rw [h]
    rfl

/-! ### Computation of the filtered space contents -/

lemma rampShapeObjs_eq :
    rampShapeObjs =
      [SpaceObj.rampShape 0, SpaceObj.rampShape 1, SpaceObj.rampShape 2,
        SpaceObj.rampShape 3, SpaceObj.rampShape 4, SpaceObj.rampShape 5] := rfl

lemma spaceInv_filter_ballBody (c : Control) (h : SpaceInv c) :
    c.space.filter isBallBodyObj = [SpaceObj.ballBody c.ballGen] := by
  rw [h, rampShapeObjs_eq]
  simp [List.filter, isBallBodyObj]

lemma spaceInv_filter_ballShape (c : Control) (h : SpaceInv c) :
    c.space.filter isBallShapeObj = [SpaceObj.ballShape c.ballGen] := by
  rw [h, rampShapeObjs_eq]
  simp [List.filter, isBallShapeObj]

lemma spaceInv_filter_ball (c : Control) (h : SpaceInv c) :
    c.space.filter isBallObj
      = [SpaceObj.ballBody c.ballGen, SpaceObj.ballShape c.ballGen] := by
  rw [h, rampShapeObjs_eq]
  simp [List.filter, isBallObj]

lemma spaceInv_filter_rampShape (c : Control) (h : SpaceInv c) :
    c.space.filter isRampShapeObj = rampShapeObjs := by
  rw [h, rampShapeObjs_eq]
  simp [List.filter, isRampShapeObj]

lemma spaceInv_not_mem_rampBody (c : Control) (h : SpaceInv c) (i : ℕ) :
    SpaceObj.rampBody i ∉ c.space := by
  rw [h, rampShapeObjs_eq]
  simp

lemma pyInt_one_half : pyInt (1 / 2 : ℚ) = 0 := by
  have h1 : (1 / 2 : ℚ).num = 1 := by norm_num
  have h2 : (1 / 2 : ℚ).den = 2 := by norm_num
  rw [pyInt, h1, h2]
  decide

/-- The list `self.ramps`, evaluated: the six ramps with their geometry-table
positions and segments. -/
lemma initRamps_eq :
    initRamps =
      [{ name := "ramp 1", position := (200, 400),
         shape := { a := (-150, 100), b := (150, 0), radius := 10 } },
       { name := "ramp 2", position := (550, 350),
         shape := { a := (-150, 0), b := (150, 100), radius := 10 } },
       { name := "ramp 3", position := (200, 300),
         shape := { a := (-150, 100), b := (150, 0), radius := 10 } },
       { name := "ramp 4", position := (550, 250),
         shape := { a := (-150, 0), b := (150, 100), radius := 10 } },
       { name := "ramp 5", position := (200, 200),
         shape := { a := (-150, 100), b := (150, 0), radius := 10 } },
       { name := "ramp 6", position := (550, 150),
         shape := { a := (-150, 0), b := (150, 100), radius := 10 } }] := rfl

/-! ### Claim theorems -/

/-- Claim C3, corrected: after `Ball.update` the cached screen position is the
truncation-toward-zero of the exact transform — `screen_x = int(physics_x)` and
`screen_y = int(-physics_y + 600)` — which agrees with the claimed
`screen_x = physics_x`, `screen_y = -physics_y + 600` exactly when both physics
coordinates are integers; a ball at `(100, 500)` with zero steps taken caches
`(100, 100)`. -/
theorem ball_refresh_truncates (b : Ball) (px py : ℤ) :
    b.update.screenPos
      = some (pyInt b.position.1,
          pyInt (b.position.2 * (-1) + (SCREEN_SIZE.2 : ℚ))) ∧
    (b.position = ((px : ℚ), (py : ℚ)) →
      b.update.screenPos = some (px, -py + 600)) ∧
    (Ball.make START_X START_Y).update.screenPos = some (100, 100) := by
  refine ⟨rfl, ?_, ?_⟩
  · intro h
    simp only [Ball.update, h]
    rw [pyInt_intCast]
    rw [pyInt_eval _ (-py + 600) (by push_cast [SCREEN_SIZE]; ring)]
  · simp only [Ball.update, Ball.make, START_X, START_Y]
    rw [pyInt_eval _ 100 (by norm_num)]
    rw [pyInt_eval _ 100 (by push_cast [SCREEN_SIZE]; ring)]

/-- Claim C3, witness for the corrected statement at the concrete start
position `(100, 500)`. -/
theorem ball_refresh_truncates_witness :
    (Ball.make START_X START_Y).update.screenPos = some (100, -500 + 600) :=
  (ball_refresh_truncates (Ball.make START_X START_Y) 100 500).2.1
    (by simp only [Ball.make, START_X, START_Y, Prod.mk.injEq]; norm_num)

/-- Claim C3, counterexample: for the non-integer physics position
`(1/2, 500)` the cached screen x is `0`, which differs from the physics x
`1/2`, so `screen_x = physics_x` fails on non-integer coordinates. -/
theorem ball_cached_x_ne_physics_x :
    (Ball.make (1 / 2) 500).update.screenPos = some (0, 100) ∧
    (((0 : ℤ) : ℚ) ≠ (Ball.make (1 / 2) 500).position.1) := by
  constructor
  · simp only [Ball.update, Ball.make]
    rw [pyInt_one_half]
    rw [pyInt_eval _ 100 (by push_cast [SCREEN_SIZE]; norm_num)]
  · simp only [Ball.make]
    norm_num

/-- Claim C7, counterexample: ramp 6 does reuse ramp 2's segment parameters,
but its body position `(550, 150)` is not higher than ramp 2's `(550, 350)`
(simulation-space y grows upward, and `150 > 350` is false). -/
theorem ramp6_not_higher_than_ramp2 :
    Ramp.make "ramp 6"
      = some { name := "ramp 6", position := (550, 150),
               shape := { a := (-150, 0), b := (150, 100), radius := 10 } } ∧
    Ramp.make "ramp 2"
      = some { name := "ramp 2", position := (550, 350),
               shape := { a := (-150, 0), b := (150, 100), radius := 10 } } ∧
    ¬ ((150 : ℚ) > (350 : ℚ)) :=
  ⟨rfl, rfl, by norm_num⟩

/-- Claim C7, amended: ramp 6 reuses ramp 2's shape parameters — the same
segment endpoints `(-150, 0)`, `(150, 100)` and thickness 10 — at a lower
position than ramp 2 (same x, simulation-space y 150 against 350). -/
theorem ramp6_reuses_ramp2_shape_at_lower_position :
    (Ramp.make "ramp 6").map Ramp.shape = (Ramp.make "ramp 2").map Ramp.shape ∧
    (Ramp.make "ramp 6").map Ramp.shape
      = some { a := ((-150 : ℚ), (0 : ℚ)), b := (150, 100), radius := 10 } ∧
    (Ramp.make "ramp 6").map Ramp.position = some (550, 150) ∧
    (Ramp.make "ramp 2").map Ramp.position = some (550, 350) ∧
    (150 : ℚ) < 350 :=
  ⟨rfl, rfl, rfl, rfl, by norm_num⟩

/-- Claim C9: ramp construction succeeds exactly for the six names
`ramp 1` .. `ramp 6` (for any other name the `shape` local is never bound and
the construction fails); each success carries exactly the one segment shape
chosen by the table. -/
theorem ramp_construction_valid_names (name : String) :
    (Ramp.make name).isSome = true ↔ name ∈ rampNames := by
  simp only [Ramp.make, Option.isSome_map, setDimensions, rampNames]
  split_ifs <;> simp_all

/-- Claim C4: the two screen-space endpoints that `Ramp.draw` computes are the
pure transform `(x, -y + 600)` of `world_position + local_offset`, and on the
six ramps of the geometry table they evaluate to the literal values below; in
particular ramp 1 yields `(50, 100)` and `(350, 200)`. -/
theorem ramp_draw_endpoints :
    initRamps.map rampDrawPoints =
      [((50, 100), (350, 200)), ((400, 250), (700, 150)),
       ((50, 200), (350, 300)), ((400, 350), (700, 250)),
       ((50, 300), (350, 400)), ((400, 450), (700, 350))] ∧
    ∀ r : Ramp, rampDrawPoints r
      = (convertToPgCoordinates (r.position + r.shape.a),
         convertToPgCoordinates (r.position + r.shape.b)) := by
  constructor
  · rw [initRamps_eq]
    simp only [List.map_cons, List.map_nil, rampDrawPoints, Prod.mk_add_mk]
    rw [convertToPgCoordinates_eval ((200 : ℚ) + -150) ((400 : ℚ) + 100) 50 100
        (by norm_num) (by norm_num),
      convertToPgCoordinates_eval ((200 : ℚ) + 150) ((400 : ℚ) + 0) 350 200
        (by norm_num) (by norm_num),
      convertToPgCoordinates_eval ((550 : ℚ) + -150) ((350 : ℚ) + 0) 400 250
        (by norm_num) (by norm_num),
      convertToPgCoordinates_eval ((550 : ℚ) + 150) ((350 : ℚ) + 100) 700 150
        (by norm_num) (by norm_num),
      convertToPgCoordinates_eval ((200 : ℚ) + -150) ((300 : ℚ) + 100) 50 200
        (by norm_num) (by norm_num),
      convertToPgCoordinates_eval ((200 : ℚ) + 150) ((300 : ℚ) + 0) 350 300
        (by norm_num) (by norm_num),
      convertToPgCoordinates_eval ((550 : ℚ) + -150) ((250 : ℚ) + 0) 400 350
        (by norm_num) (by norm_num),
      convertToPgCoordinates_eval ((550 : ℚ) + 150) ((250 : ℚ) + 100) 700 250
        (by norm_num) (by norm_num),
      convertToPgCoordinates_eval ((200 : ℚ) + -150) ((200 : ℚ) + 100) 50 300
        (by norm_num) (by norm_num),
      convertToPgCoordinates_eval ((200 : ℚ) + 150) ((200 : ℚ) + 0) 350 400
        (by norm_num) (by norm_num),
      convertToPgCoordinates_eval ((550 : ℚ) + -150) ((150 : ℚ) + 0) 400 450
        (by norm_num) (by norm_num),
      convertToPgCoordinates_eval ((550 : ℚ) + 150) ((150 : ℚ) + 100) 700 350
        (by norm_num) (by norm_num)]
  · intro r
    rfl

/-- Claim C1: with the space holding exactly the current ball (plus the ramp
shapes), a cached screen position with x strictly outside `[0, 800]` or y
strictly outside `[0, 600]` makes the bounds check perform the reset: the old
ball's body and shape leave the space, a brand-new `Ball(100, 500)` is
constructed and its body and shape added, so exactly one ball instance (the
new generation) is present, its physics position is `(100, 500)`, which
converts to screen `(100, 100)`; a cached position inside both intervals
leaves the state unchanged. -/
theorem boundsCheck_resets_offscreen_ball (c : Control) (x y : ℤ)
    (hinv : SpaceInv c) (hpos : c.ball.screenPos = some (x, y)) :
    (((x > 800 ∨ x < 0) ∨ (y > 600 ∨ y < 0)) →
      checkIfBallOffScreen c = resetBallPosition c ∧
      (checkIfBallOffScreen c).ball = Ball.make START_X START_Y ∧
      (checkIfBallOffScreen c).ball.position = ((100 : ℚ), (500 : ℚ)) ∧
      (checkIfBallOffScreen c).space.filter isBallObj
        = [SpaceObj.ballBody (c.ballGen + 1), SpaceObj.ballShape (c.ballGen + 1)] ∧
      convertToPgCoordinates (100, 500) = (100, 100)) ∧
    ((0 ≤ x ∧ x ≤ 800 ∧ 0 ≤ y ∧ y ≤ 600) → checkIfBallOffScreen c = c) := by
  constructor
  · intro hoff
    have hreset : checkIfBallOffScreen c = resetBallPosition c := by
      rw [checkIfBallOffScreen_eq, hpos]
      simp only [SCREEN_SIZE]
      split_ifs with h1 h2
      · rfl
      · rfl
      · exfalso
        rcases hoff with h | h
        · exact h1 h
        · exact h2 h
    have hfilter : (checkIfBallOffScreen c).space.filter isBallObj
        = [SpaceObj.ballBody (c.ballGen + 1), SpaceObj.ballShape (c.ballGen + 1)] := by
      rw [hreset]
      exact spaceInv_filter_ball _ (resetBallPosition_spaceInv c hinv)
    refine ⟨hreset, by rw [hreset]; rfl, by rw [hreset]; simp [resetBallPosition, Ball.make, START_X, START_Y], hfilter, ?_⟩
    exact convertToPgCoordinates_eval 100 500 100 100 (by norm_num) (by norm_num)
  · intro hin
    rw [checkIfBallOffScreen_eq, hpos]
    simp only [SCREEN_SIZE]
    split_ifs with h1 h2
    · exfalso; omega
    · exfalso; omega
    · rfl

/-- A concrete state for exercising the bounds check: the freshly initialized
controller whose ball has the cached screen position `(-1, 100)`, one pixel
off the left edge. -/
def boundsWitnessState : Control :=
  { initControl [] with
    ball := { (initControl []).ball with screenPos := some (-1, 100) } }

/-- Claim C1, witness: at cached screen x `= -1` the bounds check performs the
reset and exactly one ball instance remains, at physics `(100, 500)`, screen
`(100, 100)`. -/
theorem boundsCheck_resets_offscreen_ball_witness :
    checkIfBallOffScreen boundsWitnessState = resetBallPosition boundsWitnessState ∧
    (checkIfBallOffScreen boundsWitnessState).ball = Ball.make START_X START_Y ∧
    (checkIfBallOffScreen boundsWitnessState).ball.position = ((100 : ℚ), (500 : ℚ)) ∧
    (checkIfBallOffScreen boundsWitnessState).space.filter isBallObj
      = [SpaceObj.ballBody (boundsWitnessState.ballGen + 1),
         SpaceObj.ballShape (boundsWitnessState.ballGen + 1)] ∧
    convertToPgCoordinates (100, 500) = (100, 100) :=
  (boundsCheck_resets_offscreen_ball boundsWitnessState (-1) 100 rfl rfl).1
    (Or.inl (Or.inr (by norm_num)))

/-- Claim C2: after any number of completed main-loop iterations from the
initial state, the space holds exactly one ball body and exactly one ball
circle shape — those of the current ball generation. -/
theorem one_ball_invariant (keys0 : Keys) (frames : List Frame) :
    (run (initControl keys0) frames).space.filter isBallBodyObj
      = [SpaceObj.ballBody (run (initControl keys0) frames).ballGen] ∧
    (run (initControl keys0) frames).space.filter isBallShapeObj
      = [SpaceObj.ballShape (run (initControl keys0) frames).ballGen] := by
  have h := run_spaceInv frames (initControl keys0) (spaceInv_initControl keys0)
  exact ⟨spaceInv_filter_ballBody _ h, spaceInv_filter_ballShape _ h⟩

/-- Claim C5: every iteration of the main loop performs, in this fixed order:
poll input, record the tick count, fill the screen, advance the physics by the
constant `1/50` second (unrelated to the 60 Hz frame-rate target), refresh the
ball's cached screen position, draw the ball, draw the six ramps in order, run
the bounds check, present the frame, and wait on the 60 Hz limiter — so the
refresh always sits after the physics step and before both drawing and the
bounds check. -/
theorem loop_iteration_trace (keys0 : Keys) (frames : List Frame) (f : Frame) :
    loopTrace (run (initControl keys0) frames) f =
      [Phase.pollInput, Phase.recordTime f.ticks, Phase.fillScreen,
        Phase.physicsStep physicsDt, Phase.refreshBall, Phase.drawBall,
        Phase.drawRamp 0, Phase.drawRamp 1, Phase.drawRamp 2, Phase.drawRamp 3,
        Phase.drawRamp 4, Phase.drawRamp 5, Phase.boundsCheck,
        Phase.displayUpdate, Phase.clockTick 60] ∧
    physicsDt = 1 / 50 ∧ physicsDt ≠ 1 / 60 := by
  refine ⟨?_, rfl, by norm_num [physicsDt]⟩
  show (loopIterT _ f).2 = _
  simp only [loopIterT]
  rw [preCheckState_ramps, run_ramps, run_fps]
  rfl

/-- Claim C6: the six ramps added at startup are never removed from the space
and never repositioned — the ramp list (each ramp's body position and segment
shape) after any number of iterations equals the startup list, and the ramp
shapes present in the space are exactly the six added at startup, before and
after. -/
theorem ramps_immutable (keys0 : Keys) (frames : List Frame) :
    (run (initControl keys0) frames).ramps = (initControl keys0).ramps ∧
    (run (initControl keys0) frames).ramps = initRamps ∧
    (run (initControl keys0) frames).space.filter isRampShapeObj = rampShapeObjs ∧
    (initControl keys0).space.filter isRampShapeObj = rampShapeObjs := by
  have h := run_spaceInv frames (initControl keys0) (spaceInv_initControl keys0)
  exact ⟨run_ramps frames _, run_ramps frames _, spaceInv_filter_rampShape _ h,
    spaceInv_filter_rampShape _ (spaceInv_initControl keys0)⟩

/-- Claim C8: the controller is a two-state machine. The done flag after the
event loop is exactly "it was already set, or a quit event arrived"; the event
loop changes nothing but the done flag and the keys snapshot; one whole loop
iteration sets done under exactly the same condition; the keys snapshot is
dead state — changing it changes nothing but itself in the iteration's result;
and once done is set the loop never runs again (DONE is terminal). -/
theorem input_state_machine (c : Control) (evs : List PgEvent) (k : Keys)
    (f : Frame) (frames : List Frame) :
    (getUserInput c evs).done = (c.done || evs.any isQuitEvent) ∧
    getUserInput c evs
      = { c with done := doneAfter c.done evs, keys := keysAfter c.keys evs } ∧
    (loopIter c f).done = (c.done || f.events.any isQuitEvent) ∧
    loopIter { c with keys := k } f
      = { loopIter c f with keys := keysAfter k f.events } ∧
    run { c with done := true } frames = { c with done := true } := by
  refine ⟨?_, getUserInput_eq c evs, loopIter_done c f, loopIter_keysComm c k f,
    run_of_done _ frames rfl⟩
  rw [getUserInput_eq]
  exact doneAfter_eq c.done evs

/-- Claim C10: ramp bodies are never inserted into the space (only ramp
shapes), at startup and after any number of iterations; the ball's body and
shape are both present at initialization and for the current generation at
every reachable state; resetting removes the old generation's body and shape
and leaves exactly the new generation's pair as the ball content. -/
theorem space_membership_discipline (keys0 : Keys) (frames : List Frame) (i : ℕ) :
    SpaceObj.rampBody i ∉ (initControl keys0).space ∧
    SpaceObj.rampBody i ∉ (run (initControl keys0) frames).space ∧
    SpaceObj.ballBody 0 ∈ (initControl keys0).space ∧
    SpaceObj.ballShape 0 ∈ (initControl keys0).space ∧
    SpaceObj.ballBody (run (initControl keys0) frames).ballGen
      ∈ (run (initControl keys0) frames).space ∧
    SpaceObj.ballShape (run (initControl keys0) frames).ballGen
      ∈ (run (initControl keys0) frames).space ∧
    (resetBallPosition (run (initControl keys0) frames)).space.filter isBallObj
      = [SpaceObj.ballBody ((run (initControl keys0) frames).ballGen + 1),
         SpaceObj.ballShape ((run (initControl keys0) frames).ballGen + 1)] ∧
    SpaceObj.ballBody (run (initControl keys0) frames).ballGen
      ∉ (resetBallPosition (run (initControl keys0) frames)).space ∧
    SpaceObj.ballShape (run (initControl keys0) frames).ballGen
      ∉ (resetBallPosition (run (initControl keys0) frames)).space := by
  have h0 := spaceInv_initControl keys0
  have h := run_spaceInv frames (initControl keys0) (spaceInv_initControl keys0)
  have hr := resetBallPosition_space _ h
  refine ⟨spaceInv_not_mem_rampBody _ h0 i, spaceInv_not_mem_rampBody _ h i,
    ?_, ?_, ?_, ?_, ?_, ?_, ?_⟩
  · rw [h0, rampShapeObjs_eq]; simp [initControl]
  · rw [h0, rampShapeObjs_eq]; simp [initControl]
  · rw [h, rampShapeObjs_eq]; simp
  · rw [h, rampShapeObjs_eq]; simp
  · exact spaceInv_filter_ball _ (resetBallPosition_spaceInv _ h)
  · rw [hr, rampShapeObjs_eq]; simp
  · rw [hr, rampShapeObjs_eq]; simp

end BallRamps
